import Mathlib

/-!
# Document-library backend (`src/server.js`): request handlers over a store and Blob Storage

A shallow embedding of the Express handlers of `src/server.js`.

* The relational store is two tables (`users`, `files`) held as lists in insertion
  order, with the constraints the schema of `/init` declares: serial primary keys,
  `email UNIQUE`, `NOT NULL` columns, the foreign key `files.user_id -> users.id`.
  Statement parameters arrive as text: an id is read by the engine's `int4` input, a
  parameter of the handlers (`int4In` is its reading of decimal text), and a value bound
  for a `VARCHAR(255)` column passes the length coercion `varchar255`. The engine's own
  failures (connection loss) are outside the model.
* Blob Storage is a finite map from relative path to bytes.
* The hash collaborator (bcrypt) and the case foldings of the JavaScript runtime and of
  the store's collation are parameters; randomness, salt and clock are explicit inputs.
* A handler maps a request and a `World` to an `Outcome` and the next `World`.
  `Outcome.threw` is an exception that leaves the `async` handler (a rejected promise):
  the handler wrote no response.
-/

namespace ResourceHub

/-! ## Data model (schema of `/init`, lines 58-74) -/

/-- Row of table `users`. -/
structure User where
  id : Nat
  email : String
  password : String
  created_at : Nat
deriving DecidableEq, Repr

/-- Row of table `files`. `user_id` and `cover_image_path` are the nullable columns. -/
structure FileRecord where
  id : Nat
  user_id : Option Nat
  title : String
  category : String
  division : String
  file_path : String
  cover_image_path : Option String
  upload_date : Nat
deriving DecidableEq, Repr

/-- Message handed to `transporter.sendMail` (lines 101-106); `toAddr` is its field `to`. -/
structure Mail where
  toAddr : String
  subject : String
  text : String
  html : String
deriving DecidableEq, Repr

/-- Calls on collaborators that the handlers make besides store queries. -/
inductive Op where
  | bcryptHash (data : String)
  | bcryptCompare (data : String) (hash : String)
  | sendMail (m : Mail)
  | unlink (path : String)
deriving DecidableEq, Repr

/-- Store tables, their id sequences, Blob Storage, the log of collaborator calls
(oldest first) and the clock read by `CURRENT_TIMESTAMP`. -/
structure World where
  users : List User
  files : List FileRecord
  userSeq : Nat
  fileSeq : Nat
  blobs : List (String × List Nat)
  ops : List Op
  clock : Nat
deriving DecidableEq, Repr

/-- JSON bodies the handlers send. -/
inductive Body where
  | message (m : String)
  | error (m : String)
  | loginOk (m : String) (user : User)
  | uploadOk (m : String) (pdfFilePath : String) (coverImagePath : Option String)
  | rows (rs : List FileRecord)
  | updateOk (m : String) (file : FileRecord)
deriving DecidableEq, Repr

/-- What a handler run ends in: a response written with `res.status(s).json(b)`, or an
exception escaping the handler before any response was written. -/
inductive Outcome where
  | responded (status : Nat) (body : Body)
  | threw (err : String)
deriving DecidableEq, Repr

/-- The hash collaborator: `hash data rounds salt` and `compare data hash`. -/
structure Bcrypt where
  hash : String → Nat → Nat → String
  compare : String → String → Bool

/-! ## Parameter input of the store -/

/-- Length coercion of a value bound for a `VARCHAR(255)` column, as SQL prescribes for
storing into `character varying(n)`: a longer value is refused, unless the excess is
spaces only, in which case it is cut to 255 characters. -/
def varchar255 (s : String) : Except String String :=
  if s.length ≤ 255 then .ok s
  else if (s.data.drop 255).all (fun c => c == ' ') then .ok (String.mk (s.data.take 255))
  else .error "value too long for type character varying(255)"

/-- The coercion on a nullable parameter: null passes. -/
def varchar255? (s : Option String) : Except String (Option String) :=
  match s with
  | none => .ok none
  | some v =>
    match varchar255 v with
    | .ok v1 => .ok (some v1)
    | .error e => .error e

/-- White space the integer input skips. -/
def isSpaceChar (c : Char) : Bool :=
  c == ' ' || c == '\t' || c == '\n' || c == '\r' || c == Char.ofNat 11 || c == Char.ofNat 12

/-- Value of a non-empty run of decimal digits. -/
def digitsValue (cs : List Char) : Option Nat :=
  if cs ≠ [] ∧ cs.all Char.isDigit then
    some (cs.foldl (fun n c => 10 * n + (c.toNat - 48)) 0)
  else none

/-- Input of an `int4` parameter from decimal text: optional surrounding white space, an
optional sign, digits, and a value within the 32-bit signed range. The handlers take the
engine's input function as the parameter `int4`; this is its reading of decimal text,
used where a concrete engine is needed. -/
def int4In (s : String) : Except String Int :=
  let body := ((s.data.dropWhile isSpaceChar).reverse.dropWhile isSpaceChar).reverse
  let signed : Bool × List Char :=
    match body with
    | '-' :: r => (true, r)
    | '+' :: r => (false, r)
    | r => (false, r)
  match digitsValue signed.2 with
  | none => .error ("invalid input syntax for type integer: \"" ++ s ++ "\"")
  | some n =>
    let v : Int := if signed.1 then -(n : Int) else (n : Int)
    if -2147483648 ≤ v ∧ v ≤ 2147483647 then .ok v
    else .error ("value \"" ++ s ++ "\" is out of range for type integer")

/-! ## Registration (lines 86-117) -/

/-- One lowercase hexadecimal digit. -/
def hexDigit (n : Nat) : Char :=
  if n % 16 < 10 then Char.ofNat (48 + n % 16) else Char.ofNat (87 + n % 16)

/-- The eight bytes of `crypto.randomBytes(8)`, drawn from the entropy `r`. -/
def randomBytes8 (r : Nat) : List Nat :=
  (List.range 8).map (fun i => r / 256 ^ (7 - i) % 256)

/-- Encoding `Buffer.toString("hex")`: two digits per byte. -/
def toHex (bytes : List Nat) : String :=
  String.mk (bytes.flatMap (fun b => [hexDigit (b / 16), hexDigit b]))

/-- Line 89: `crypto.randomBytes(8).toString("hex")`. -/
def generatePassword (r : Nat) : String := toHex (randomBytes8 r)

/-- The mail of lines 101-106. -/
def passwordMail (email : Option String) (password : String) : Mail :=
  { toAddr := email.getD "", subject := "This is your password",
    text := "Your password is below", html := "<html><b>" ++ password ++ "</b></html>" }

/-- Statement `INSERT INTO users (email, password) VALUES ($1, $2) RETURNING id`.
The email is coerced to the column's length first; once the insert runs, the sequence
value is consumed whether or not the row is accepted. The password column receives a
bcrypt digest, which has 60 characters. -/
def insertUser (email : Option String) (password : String) (w : World) :
    Except String Nat × World :=
  match varchar255? email with
  | .error e => (.error e, w)
  | .ok stored =>
    let w1 := { w with userSeq := w.userSeq + 1 }
    match stored with
    | none =>
      (.error "null value in column \"email\" of relation \"users\" violates not-null constraint",
        w1)
    | some e =>
      if w.users.any (fun u => u.id == w.userSeq) then
        (.error "duplicate key value violates unique constraint \"users_pkey\"", w1)
      else if w.users.any (fun u => u.email == e) then
        (.error "duplicate key value violates unique constraint \"users_email_key\"", w1)
      else
        (.ok w.userSeq,
          { w1 with users := w.users ++ [{ id := w.userSeq, email := e, password := password,
                                            created_at := w.clock }] })

/-- Body of a register request: `req.body.email`. -/
structure RegisterReq where
  email : Option String
deriving DecidableEq, Repr

/-- Handler `app.post("/register")`; `rnd` feeds `crypto.randomBytes`, `salt` the hash. -/
def registerHandler (B : Bcrypt) (req : RegisterReq) (rnd salt : Nat) (w : World) :
    Outcome × World :=
  let password := generatePassword rnd
  let hashedPassword := B.hash password 10 salt
  let w1 := { w with ops := w.ops ++ [Op.bcryptHash password] }
  match insertUser req.email hashedPassword w1 with
  | (.error e, w2) => (.responded 500 (.error e), w2)
  | (.ok _, w2) =>
    let w3 := { w2 with ops := w2.ops ++ [Op.sendMail (passwordMail req.email password)] }
    (.responded 200
      (.message "User registered successfully. Password has been sent to your email."), w3)

/-! ## Login (lines 120-145) -/

/-- Statement `SELECT * FROM users WHERE email = $1`; a null parameter equals no row. -/
def selectUsersByEmail (email : Option String) (w : World) : List User :=
  match email with
  | none => []
  | some e => w.users.filter (fun u => u.email == e)

/-- Body of a login request. -/
structure LoginReq where
  email : Option String
  password : Option String
deriving DecidableEq, Repr

/-- Handler `app.post("/login")`. `bcrypt.compare` rejects when given no data. -/
def loginHandler (B : Bcrypt) (req : LoginReq) (w : World) : Outcome × World :=
  match selectUsersByEmail req.email w with
  | [] => (.responded 400 (.message "User not found"), w)
  | user :: _ =>
    match req.password with
    | none => (.responded 500 (.error "data and hash arguments required"), w)
    | some p =>
      let w1 := { w with ops := w.ops ++ [Op.bcryptCompare p user.password] }
      if B.compare p user.password then
        (.responded 200 (.loginOk "Login successful" user), w1)
      else
        (.responded 400 (.message "Incorrect password"), w1)

/-- Number of hash comparisons in a call log. -/
def compareCount (ops : List Op) : Nat :=
  (ops.filter (fun o => match o with | .bcryptCompare _ _ => true | _ => false)).length

/-! ## Upload (lines 148-193) -/

/-- File object that multer's disk storage leaves in `req.files[field][i]`; `filename`
is the generated name `<ms>-<random><ext>` of lines 37-40, already written to
`uploads/`. -/
structure MulterFile where
  originalname : String
  filename : String
deriving DecidableEq, Repr

/-- Object `req.files` under `upload.fields`: a field that carried no file has no key. -/
structure ReqFiles where
  pdf : Option (List MulterFile)
  coverImage : Option (List MulterFile)
deriving DecidableEq, Repr

/-- Upload request after the multer middleware: the plain fields of `req.body` and
`req.files`, which is undefined when the request was not multipart. -/
structure UploadReq where
  title : Option String
  userId : Option String
  category : Option String
  division : Option String
  files : Option ReqFiles
deriving DecidableEq, Repr

/-- Call `path.join(dir, name)` for a directory name and a file name without separators
or dot segments, the shape multer's generated names have. -/
def pathJoin (dir name : String) : String := dir ++ "/" ++ name

/-- First `NOT NULL` column of `files` that would receive null, if any. -/
def nullColumn (title category division : Option String) : Option String :=
  if title.isNone then some "title"
  else if category.isNone then some "category"
  else if division.isNone then some "division"
  else none

/-- Statement `INSERT INTO files (user_id, title, category, division, file_path,
cover_image_path) VALUES ($1, ..., $6)`. -/
def insertFile (int4 : String → Except String Int) (userId : Option String)
    (title category division : Option String)
    (filePath : String) (coverImagePath : Option String) (w : World) :
    Except String Unit × World :=
  let uid : Except String (Option Int) :=
    match userId with
    | none => .ok none
    | some u => (int4 u).map some
  match uid, varchar255? title, varchar255? category, varchar255? division,
      varchar255 filePath, varchar255? coverImagePath with
  | .ok uid, .ok title, .ok category, .ok division, .ok filePath, .ok coverImagePath =>
    let w1 := { w with fileSeq := w.fileSeq + 1 }
    match title, category, division with
    | some t, some c, some d =>
      if w.files.any (fun r => r.id == w.fileSeq) then
        (.error "duplicate key value violates unique constraint \"files_pkey\"", w1)
      else
        match uid with
        | some (Int.ofNat k) =>
          if w.users.any (fun u => u.id == k) then
            (.ok (),
              { w1 with files := w.files ++ [{ id := w.fileSeq, user_id := some k, title := t,
                                                category := c, division := d,
                                                file_path := filePath,
                                                cover_image_path := coverImagePath,
                                                upload_date := w.clock }] })
          else
            (.error "insert or update on table \"files\" violates foreign key constraint \"files_user_id_fkey\"", w1)
        | some (Int.negSucc _) =>
          (.error "insert or update on table \"files\" violates foreign key constraint \"files_user_id_fkey\"", w1)
        | none =>
          (.ok (),
            { w1 with files := w.files ++ [{ id := w.fileSeq, user_id := none, title := t,
                                              category := c, division := d,
                                              file_path := filePath,
                                              cover_image_path := coverImagePath,
                                              upload_date := w.clock }] })
    | _, _, _ =>
      (.error ("null value in column \"" ++ (nullColumn title category division).getD "" ++
          "\" of relation \"files\" violates not-null constraint"), w1)
  | .error e, _, _, _, _, _ => (.error e, w)
  | _, .error e, _, _, _, _ => (.error e, w)
  | _, _, .error e, _, _, _ => (.error e, w)
  | _, _, _, .error e, _, _ => (.error e, w)
  | _, _, _, _, .error e, _ => (.error e, w)
  | _, _, _, _, _, .error e => (.error e, w)

/-- Handler `app.post("/upload")`, run after multer; `int4` is the engine's reading of
an integer parameter. Lines 157-168 stand before the `try`: a property read on
`undefined` or `null` there leaves the handler as a `TypeError`. -/
def uploadHandler (int4 : String → Except String Int) (req : UploadReq) (w : World) :
    Outcome × World :=
  match req.files with
  | none => (.threw "TypeError: Cannot read properties of undefined (reading 'pdf')", w)
  | some files =>
    let pdfFile := files.pdf
    let coverImage := files.coverImage
    -- line 160: console.log(title, userId, category, pdfFile[0], coverImage[0])
    match pdfFile, coverImage with
    | none, _ => (.threw "TypeError: Cannot read properties of undefined (reading '0')", w)
    | some _, none => (.threw "TypeError: Cannot read properties of undefined (reading '0')", w)
    | some pdfList, some coverList =>
      -- lines 161-163: an array is truthy, so coverImageFile is the array itself
      let coverImageFile := coverList
      match pdfList.head? with
      | none =>
        (.threw "TypeError: Cannot read properties of undefined (reading 'filename')", w)
      | some pdf0 =>
        let pdfFilePath := pathJoin "uploads" pdf0.filename
        let coverImagePath :=
          match coverImageFile.head? with
          | some c => some (pathJoin "uploads" c.filename)
          | none => none
        match insertFile int4 req.userId req.title req.category req.division pdfFilePath
            coverImagePath w with
        | (.error e, w1) => (.responded 500 (.error e), w1)
        | (.ok _, w1) =>
          (.responded 200
            (.uploadOk "File and cover image uploaded successfully" pdfFilePath coverImagePath),
            w1)

/-! ## List and search (lines 194-216) -/

/-- Handler `app.get("/files")`: `SELECT * FROM files`. -/
def listHandler (w : World) : Outcome × World :=
  (.responded 200 (.rows w.files), w)

/-- The two case foldings the search goes through: `js` is `String.prototype.toLowerCase`
of the JavaScript runtime, `sql` is the folding that `LOWER` and `ILIKE` apply under the
store's collation. Both lie outside `server.js` and are parameters of the model. -/
structure CaseFolding where
  js : List Char → List Char
  sql : List Char → List Char

/-- Whether `c` has a meaning of its own in a `LIKE` pattern. -/
def isWild (c : Char) : Bool := c == '%' || c == '_' || c == '\\'

/-- What the model assumes of the foldings: the empty string folds to itself, the store's
folding is idempotent, leaves the `%` around a pattern in place, and makes no pattern
character out of a plain one. -/
structure CaseFolding.Lawful (F : CaseFolding) : Prop where
  js_nil : F.js [] = []
  sql_nil : F.sql [] = []
  sql_idem : ∀ s, F.sql (F.sql s) = F.sql s
  sql_percent : ∀ s, F.sql (['%'] ++ s ++ ['%']) = ['%'] ++ F.sql s ++ ['%']
  sql_plain : ∀ s, (∀ c ∈ s, isWild c = false) → ∀ c ∈ F.sql s, isWild c = false

/-- Folding of the letters `A`-`Z` alone. -/
def lower (s : List Char) : List Char := s.map Char.toLower

/-- The folding that both runtimes agree on for text in the ASCII range. -/
def asciiFolding : CaseFolding := { js := lower, sql := lower }

/-- First result that is not `some false` when `f` is tried at each suffix of the text,
longest first: the positions a `%` may skip to. -/
def scanSuffixes (f : List Char → Option Bool) : List Char → Option Bool
  | [] => f []
  | x :: t =>
    match f (x :: t) with
    | some false => scanSuffixes f t
    | r => r

/-- Element of a `LIKE` pattern under the default escape character: `%`, `_`, a
character to be matched as it stands, or a backslash with nothing after it. -/
inductive Tok where
  | any
  | one
  | lit (c : Char)
  | dangling
deriving DecidableEq, Repr

/-- Reading of a `LIKE` pattern; `escaped` tells that the previous character was an
unescaped backslash, which makes the next one literal. -/
def tokens : Bool → List Char → List Tok
  | escaped, [] => if escaped then [Tok.dangling] else []
  | escaped, c :: p =>
    if escaped then Tok.lit c :: tokens false p
    else if c = '\\' then tokens true p
    else if c = '%' then Tok.any :: tokens false p
    else if c = '_' then Tok.one :: tokens false p
    else Tok.lit c :: tokens false p

/-- One pattern element against the text, `rest` matching what follows it. `none` is
the engine's error "LIKE pattern must not end with escape character", raised when the
match reaches a dangling backslash with text left. -/
def matchTok (tok : Tok) (rest : List Char → Option Bool) (t : List Char) : Option Bool :=
  match tok with
  | .any => scanSuffixes rest t
  | .one =>
    match t with
    | [] => some false
    | _ :: t1 => rest t1
  | .lit c =>
    match t with
    | [] => some false
    | x :: t1 => if x = c then rest t1 else some false
  | .dangling =>
    match t with
    | [] => some false
    | _ :: _ => none

/-- A sequence of pattern elements against the whole text. -/
def matchToks : List Tok → List Char → Option Bool
  | [] => fun t => some t.isEmpty
  | tok :: ts => matchTok tok (matchToks ts)

/-- SQL `text LIKE pattern`, as `likeMatch pattern text`: `%` matches any run of
characters, `_` one character, a backslash makes the next pattern character literal. -/
def likeMatch (pattern text : List Char) : Option Bool :=
  matchToks (tokens false pattern) text

/-- SQL `text ILIKE pattern`: `LIKE` after the store has folded the case of both sides. -/
def ilike (F : CaseFolding) (text pattern : List Char) : Option Bool :=
  likeMatch (F.sql pattern) (F.sql text)

/-- Rows selected by `WHERE LOWER(title) ILIKE $1 OR LOWER(category) ILIKE $1`. -/
def searchRows (F : CaseFolding) (pattern : List Char) :
    List FileRecord → Except String (List FileRecord)
  | [] => .ok []
  | r :: rs =>
    match ilike F (F.sql r.title.data) pattern, ilike F (F.sql r.category.data) pattern with
    | some a, some b =>
      match searchRows F pattern rs with
      | .ok l => .ok (if a || b then r :: l else l)
      | .error e => .error e
    | _, _ => .error "LIKE pattern must not end with escape character"

/-- Handler `app.get("/search")`; `query` is `req.query.query`. Line 205 stands before
the `try`. -/
def searchHandler (F : CaseFolding) (query : Option String) (w : World) : Outcome × World :=
  match query with
  | none =>
    (.threw "TypeError: Cannot read properties of undefined (reading 'toLowerCase')", w)
  | some q =>
    let query := F.js q.data
    match searchRows F (['%'] ++ query ++ ['%']) w.files with
    | .ok rs => (.responded 200 (.rows rs), w)
    | .error e => (.responded 500 (.error e), w)

/-- The reading of "contains `q` as a substring, compared case-insensitively": both the
field and `q` are folded by the store's folding, then compared character by character. -/
def containsCI (F : CaseFolding) (field q : String) : Bool :=
  decide (F.sql q.data <:+: F.sql field.data)

/-! ## Delete (lines 218-243) -/

/-- Whether a blob exists at `path`; the empty path names no file. -/
def blobExists (w : World) (path : String) : Bool :=
  path != "" && w.blobs.any (fun b => b.1 == path)

/-- Call `fs.unlinkSync(path)`: removes the blob, or throws when there is none. -/
def unlinkSync (path : String) (w : World) : Except String Unit × World :=
  let w1 := { w with ops := w.ops ++ [Op.unlink path] }
  if blobExists w path then
    (.ok (), { w1 with blobs := w.blobs.filter (fun b => b.1 != path) })
  else
    (.error ("ENOENT: no such file or directory, unlink '" ++ path ++ "'"), w1)

/-- Statement `DELETE FROM files WHERE id = $1 RETURNING *`, with `$1` already read. -/
def deleteFileById (n : Int) (w : World) : List FileRecord × World :=
  (w.files.filter (fun r => (r.id : Int) == n),
    { w with files := w.files.filter (fun r => (r.id : Int) != n) })

/-- Handler `app.delete("/files/:id")`; `id` is the path segment `req.params.id`, which
the engine reads with `int4` when it binds `$1`. -/
def deleteHandler (int4 : String → Except String Int) (id : String) (w : World) :
    Outcome × World :=
  match int4 id with
  | .error e => (.responded 500 (.error e), w)
  | .ok n =>
    match deleteFileById n w with
    | ([], w1) => (.responded 404 (.message "File not found"), w1)
    | (row :: _, w1) =>
      let filePath := row.file_path
      let coverImagePath := row.cover_image_path
      match unlinkSync filePath w1 with
      | (.error e, w2) => (.responded 500 (.error e), w2)
      | (.ok _, w2) =>
        match coverImagePath with
        | none => (.responded 200 (.message "File deleted successfully"), w2)
        | some c =>
          -- line 233: the empty string is falsy
          if c = "" then (.responded 200 (.message "File deleted successfully"), w2)
          else
            match unlinkSync c w2 with
            | (.error e, w3) => (.responded 500 (.error e), w3)
            | (.ok _, w3) => (.responded 200 (.message "File deleted successfully"), w3)

/-! ## Update (lines 246-266) -/

/-- Clause `SET title = $1, category = $2` applied to one row. -/
def setTitleCategory (title category : String) (r : FileRecord) : FileRecord :=
  { r with title := title, category := category }

/-- Statement `UPDATE files SET title = $1, category = $2 WHERE id = $3 RETURNING *`,
with `$3` already read. The bound title and category are coerced to the column length
when the statement is planned, before any row is looked at; a null title or category is
refused when a row would receive it. The new row versions are written after the rows
that stay. -/
def updateFileById (n : Int) (title category : Option String) (w : World) :
    Except String (List FileRecord) × World :=
  match varchar255? title, varchar255? category with
  | .ok title, .ok category =>
    let hit := w.files.filter (fun r => (r.id : Int) == n)
    if hit.isEmpty then (.ok [], w)
    else
      match title, category with
      | some t, some c =>
        let rows := hit.map (setTitleCategory t c)
        (.ok rows, { w with files := w.files.filter (fun r => (r.id : Int) != n) ++ rows })
      | none, _ =>
        (.error "null value in column \"title\" of relation \"files\" violates not-null constraint",
          w)
      | some _, none =>
        (.error "null value in column \"category\" of relation \"files\" violates not-null constraint",
          w)
  | .error e, _ => (.error e, w)
  | _, .error e => (.error e, w)

/-- Handler `app.put("/files/:id")`; `id` is the path segment `req.params.id`, which the
engine reads with `int4` when it binds `$3`. -/
def updateHandler (int4 : String → Except String Int) (id : String)
    (title category : Option String) (w : World) : Outcome × World :=
  match int4 id with
  | .error e => (.responded 500 (.error e), w)
  | .ok n =>
    match updateFileById n title category w with
    | (.error e, w1) => (.responded 500 (.error e), w1)
    | (.ok [], w1) => (.responded 404 (.message "File not found"), w1)
    | (.ok (row :: _), w1) => (.responded 200 (.updateOk "File updated successfully" row), w1)

/-- Schema invariant `id SERIAL PRIMARY KEY` on `files`: no two rows share an id. -/
def filesKeyed (w : World) : Prop := (w.files.map (fun r => r.id)).Nodup

instance (w : World) : Decidable (filesKeyed w) := by unfold filesKeyed; infer_instance

/-! ## Concrete worlds and requests used by the closed theorems -/

/-- One record with a cover image; only the cover blob is left in Blob Storage. -/
def worldPdfGone : World :=
  { users := [],
    files := [{ id := 1, user_id := none, title := "Abc", category := "d", division := "x",
                file_path := "uploads/a.pdf", cover_image_path := some "uploads/c.png",
                upload_date := 0 }],
    userSeq := 1, fileSeq := 2, blobs := [("uploads/c.png", [1])], ops := [], clock := 0 }

/-- Two records, each with its blobs in Blob Storage. -/
def worldTwoFiles : World :=
  { users := [{ id := 1, email := "a@x.com", password := "h", created_at := 0 }],
    files := [{ id := 1, user_id := some 1, title := "Abc", category := "d", division := "x",
                file_path := "uploads/a.pdf", cover_image_path := some "uploads/c.png",
                upload_date := 0 },
              { id := 2, user_id := some 1, title := "Notes", category := "Maths",
                division := "y", file_path := "uploads/b.pdf", cover_image_path := none,
                upload_date := 5 }],
    userSeq := 2, fileSeq := 3,
    blobs := [("uploads/a.pdf", [37, 80]), ("uploads/c.png", [1]), ("uploads/b.pdf", [2])],
    ops := [], clock := 9 }

/-- The two-record store after multer has stored the cover image of `uploadNoPdf`. -/
def worldCoverStored : World :=
  { worldTwoFiles with blobs := worldTwoFiles.blobs ++ [("uploads/17-3.png", [137, 80])] }

/-- One record whose `cover_image_path` equals its `file_path`; the blob is present. -/
def worldCoverIsPdf : World :=
  { users := [],
    files := [{ id := 1, user_id := none, title := "Abc", category := "d", division := "x",
                file_path := "uploads/a.pdf", cover_image_path := some "uploads/a.pdf",
                upload_date := 0 }],
    userSeq := 1, fileSeq := 2, blobs := [("uploads/a.pdf", [37, 80])], ops := [], clock := 0 }

/-- A title of 256 characters. -/
def longTitle : String := String.mk (List.replicate 256 'a')

/-- An email of 256 characters, the last one a space. -/
def paddedEmail : String := String.mk (List.replicate 255 'a' ++ [' '])

/-- A multipart upload with a cover image and no PDF. -/
def uploadNoPdf : UploadReq :=
  { title := some "T", userId := some "1", category := some "C", division := some "D",
    files := some { pdf := none,
                    coverImage := some [{ originalname := "c.png", filename := "17-3.png" }] } }

/-- A hash collaborator whose `compare` accepts exactly the plaintext that was hashed:
the digest is a salt digit, a separator and the plaintext. -/
def taggedBcrypt : Bcrypt :=
  { hash := fun p _ s => String.mk (Char.ofNat (48 + s % 10) :: '$' :: p.data),
    compare := fun q h => decide (h.data.drop 2 = q.data) }

/-- Whether the request carries a PDF file: `req.files.pdf` holds at least one file. -/
def carriesPdf (req : UploadReq) : Bool :=
  match req.files with
  | some { pdf := some (_ :: _), .. } => true
  | _ => false


/-! ## Lemmas on the store statements -/

theorem filter_id_none (fs : List FileRecord) (n : Int) (h : ∀ r ∈ fs, (r.id : Int) ≠ n) :
    fs.filter (fun r => (r.id : Int) == n) = [] := by
  rw [List.filter_eq_nil_iff]
  intro r hr
  simpa using h r hr

theorem filter_id_all (fs : List FileRecord) (n : Int) (h : ∀ r ∈ fs, (r.id : Int) ≠ n) :
    fs.filter (fun r => (r.id : Int) != n) = fs := by
  rw [List.filter_eq_self]
  intro r hr
  simpa using h r hr

/-- Under the primary key, selecting by a row's id yields that row alone. -/
theorem filter_id_keyed (fs : List FileRecord) (row : FileRecord)
    (hk : (fs.map (fun r => r.id)).Nodup) (hr : row ∈ fs) :
    fs.filter (fun r => (r.id : Int) == (row.id : Int)) = [row] := by
  induction fs with
  | nil => cases hr
  | cons a t ih =>
    rw [List.map_cons, List.nodup_cons] at hk
    rcases List.mem_cons.mp hr with h | h
    · subst h
      have hno : ∀ r ∈ t, (r.id : Int) ≠ (row.id : Int) := by
        intro r hrt heq
        have heq1 : r.id = row.id := by exact_mod_cast heq
        exact hk.1 (heq1 ▸ List.mem_map_of_mem (fun r => r.id) hrt)
      simp [List.filter_cons, filter_id_none t row.id hno]
    · have hne : a.id ≠ row.id := by
        intro heq
        exact hk.1 (heq ▸ List.mem_map_of_mem (fun r => r.id) h)
      simp [List.filter_cons, hne, ih hk.2 h]

/-- Under the primary key, the rows with another id are the rows other than `row`. -/
theorem filter_ne_keyed (fs : List FileRecord) (row : FileRecord)
    (hk : (fs.map (fun r => r.id)).Nodup) (hr : row ∈ fs) :
    fs.filter (fun r => (r.id : Int) != (row.id : Int))
      = fs.filter (fun r => decide (r ≠ row)) := by
  apply List.filter_congr
  intro r hrm
  by_cases h : r = row
  · subst h; simp
  · have hid : r.id ≠ row.id := by
      intro heq
      exact h (List.inj_on_of_nodup_map hk hrm hr heq)
    simp [h, hid]

/-- A failed `unlinkSync` logs the call and changes nothing else. -/
theorem unlinkSync_absent (path : String) (w : World) (h : blobExists w path = false) :
    unlinkSync path w
      = (.error ("ENOENT: no such file or directory, unlink '" ++ path ++ "'"),
         { w with ops := w.ops ++ [Op.unlink path] }) := by
  simp [unlinkSync, h]

/-- A successful `unlinkSync` logs the call and drops the blob at `path`. -/
theorem unlinkSync_present (path : String) (w : World) (h : blobExists w path = true) :
    unlinkSync path w
      = (.ok (), { w with ops := w.ops ++ [Op.unlink path],
                          blobs := w.blobs.filter (fun b => b.1 != path) }) := by
  simp [unlinkSync, h]

theorem blobExists_after_unlink (w : World) (p c : String) (ops : List Op)
    (hc : blobExists w c = true) (hne : c ≠ p) :
    blobExists { w with ops := ops, blobs := w.blobs.filter (fun b => b.1 != p) } c = true := by
  simp only [blobExists, Bool.and_eq_true, List.any_eq_true] at hc ⊢
  obtain ⟨h1, b, hb, hbc⟩ := hc
  refine ⟨h1, b, ?_, hbc⟩
  rw [List.mem_filter]
  refine ⟨hb, ?_⟩
  have : b.1 = c := by simpa using hbc
  simp [this, hne]

/-- World after a delete that finds `row` and both of its blobs. -/
theorem deleteHandler_present (int4 : String → Except String Int) (w : World)
    (id : String) (row : FileRecord)
    (hid : int4 id = .ok (row.id : Int))
    (hk : filesKeyed w) (hr : row ∈ w.files)
    (hpdf : blobExists w row.file_path = true)
    (hcov : ∀ c, row.cover_image_path = some c → blobExists w c = true ∧ c ≠ row.file_path) :
    deleteHandler int4 id w
      = (.responded 200 (.message "File deleted successfully"),
         { w with
             files := w.files.filter (fun r => decide (r ≠ row)),
             blobs := w.blobs.filter
               (fun b => decide (b.1 ≠ row.file_path ∧ some b.1 ≠ row.cover_image_path)),
             ops := w.ops ++ Op.unlink row.file_path ::
               (match row.cover_image_path with
                | some c => [Op.unlink c]
                | none => []) }) := by
  have hsel := filter_id_keyed w.files row hk hr
  have hrest := filter_ne_keyed w.files row hk hr
  have hu := unlinkSync_present row.file_path
    { w with files := w.files.filter (fun r => decide (r ≠ row)) } hpdf
  simp only [deleteHandler, hid, deleteFileById, hsel, hrest]
  rw [hu]
  cases hc : row.cover_image_path with
  | none =>
    simp only [World.mk.injEq, Prod.mk.injEq, true_and, and_true]
    apply List.filter_congr
    intro b _
    by_cases h1 : b.1 = row.file_path <;> simp [h1]
  | some c =>
    obtain ⟨hex, hne⟩ := hcov c hc
    have hnonempty : c ≠ "" := by
      intro h
      simp [blobExists, h] at hex
    have hex2 := blobExists_after_unlink
      { w with files := w.files.filter (fun r => decide (r ≠ row)) } row.file_path c
      (w.ops ++ [Op.unlink row.file_path]) hex hne
    have hu2 := unlinkSync_present c _ hex2
    simp only [hnonempty, if_false]
    rw [hu2]
    simp only [World.mk.injEq, Prod.mk.injEq, true_and, and_true, List.filter_filter,
      List.append_assoc, List.singleton_append]
    apply List.filter_congr
    intro b _
    by_cases h1 : b.1 = row.file_path <;> by_cases h2 : b.1 = c <;> simp [h1, h2]

theorem varchar255_short (s : String) (h : s.length ≤ 255) : varchar255 s = .ok s := by
  simp [varchar255, h]

theorem varchar255?_short (s : Option String) (h : ∀ v, s = some v → v.length ≤ 255) :
    varchar255? s = .ok s := by
  cases s with
  | none => rfl
  | some v => simp [varchar255?, varchar255_short v (h v rfl)]

/-- The rows an UPDATE by id returns start with the first match. -/
theorem filter_id_find (fs : List FileRecord) (n : Int) :
    (fs.filter (fun r => (r.id : Int) == n)).head? = fs.find? (fun r => (r.id : Int) == n) := by
  induction fs with
  | nil => rfl
  | cons a t ih =>
    by_cases h : (a.id : Int) = n
    · simp [List.filter_cons, List.find?_cons, h]
    · simp [List.filter_cons, List.find?_cons, h, ih]

/-- Result of the UPDATE statement for a title and a category within the column length. -/
theorem updateFileById_short (w : World) (n : Int) (title category : String)
    (ht : title.length ≤ 255) (hc : category.length ≤ 255) :
    updateFileById n (some title) (some category) w
      = (.ok ((w.files.filter (fun r => (r.id : Int) == n)).map
               (setTitleCategory title category)),
         { w with files := (w.files.filter (fun r => (r.id : Int) != n) ++
                              (w.files.filter (fun r => (r.id : Int) == n)).map
                                (setTitleCategory title category)) }) := by
  simp only [updateFileById, varchar255?, varchar255_short title ht,
    varchar255_short category hc]
  cases hf : w.files.filter (fun r => (r.id : Int) == n) with
  | nil =>
    have hall : w.files.filter (fun r => (r.id : Int) != n) = w.files := by
      rw [List.filter_eq_nil_iff] at hf
      rw [List.filter_eq_self]
      intro r hr
      have := hf r hr
      simpa using this
    simp [hall]
  | cons a t => simp

/-- The generated password has sixteen characters. -/
theorem generatePassword_length (r : Nat) : (generatePassword r).length = 16 := by
  simp [generatePassword, toHex, randomBytes8, String.length, List.range, List.range.loop]

/-! ## Lemmas on case folding and `LIKE` -/

theorem toLower_cases (c : Char) :
    c.toLower = c ∨ (97 ≤ c.toLower.toNat ∧ c.toLower.toNat ≤ 122) := by
  unfold Char.toLower
  by_cases h : c.toNat ≥ 65 ∧ c.toNat ≤ 90
  · right
    simp only [h, and_self, if_true]
    obtain ⟨h1, h2⟩ := h
    generalize c.toNat = n at h1 h2
    interval_cases n <;> decide
  · left
    simp [h]

theorem toLower_idem (c : Char) : c.toLower.toLower = c.toLower := by
  rcases toLower_cases c with h | ⟨h1, h2⟩
  · rw [h, h]
  · generalize c.toLower = d at h1 h2
    unfold Char.toLower
    have : ¬ (d.toNat ≥ 65 ∧ d.toNat ≤ 90) := by omega
    simp [this]

theorem lower_idem (s : List Char) : lower (lower s) = lower s := by
  simp [lower, toLower_idem]

/-- Folding the case neither makes nor removes a pattern character. -/
theorem isWild_toLower (c : Char) (h : isWild c = false) : isWild c.toLower = false := by
  rcases toLower_cases c with h1 | ⟨h1, h2⟩
  · rw [h1]; exact h
  · generalize c.toLower = d at h1 h2
    simp only [isWild, Bool.or_eq_false_iff, beq_eq_false_iff_ne, ne_eq]
    refine ⟨⟨?_, ?_⟩, ?_⟩ <;> intro hd <;> subst hd <;> revert h1 h2 <;> decide

theorem lower_not_wild (s : List Char) (h : ∀ c ∈ s, isWild c = false) :
    ∀ c ∈ lower s, isWild c = false := by
  intro c hc
  simp only [lower, List.mem_map] at hc
  obtain ⟨d, hd, rfl⟩ := hc
  exact isWild_toLower d (h d hd)

theorem scanSuffixes_true (f : List Char → Option Bool) (h : ∀ t, f t = some true)
    (t : List Char) : scanSuffixes f t = some true := by
  cases t with
  | nil => simp [scanSuffixes, h]
  | cons x t => simp [scanSuffixes, h]

theorem tokens_plain (s rest : List Char) (hs : ∀ c ∈ s, isWild c = false) :
    tokens false (s ++ rest) = s.map Tok.lit ++ tokens false rest := by
  induction s with
  | nil => rfl
  | cons c s ih =>
    have hc := hs c (List.mem_cons_self c s)
    simp only [isWild, Bool.or_eq_false_iff, beq_eq_false_iff_ne, ne_eq] at hc
    obtain ⟨⟨h1, h2⟩, h3⟩ := hc
    have hs1 : ∀ d ∈ s, isWild d = false := fun d hd => hs d (List.mem_cons_of_mem c hd)
    simp [tokens, h1, h2, h3, ih hs1]

/-- Elements of the handler's pattern `%s%` for `s` of plain characters. -/
theorem tokens_percent_plain (s : List Char) (hs : ∀ c ∈ s, isWild c = false) :
    tokens false (['%'] ++ s ++ ['%']) = Tok.any :: (s.map Tok.lit ++ [Tok.any]) := by
  have h : tokens false (['%'] ++ s ++ ['%']) = Tok.any :: tokens false (s ++ ['%']) := by
    simp [tokens]
  rw [h, tokens_plain s ['%'] hs]
  rfl

/-- The pattern `%` matches every text. -/
theorem matchToks_any (t : List Char) : matchToks [Tok.any] t = some true := by
  show scanSuffixes (fun u => some u.isEmpty) t = some true
  induction t with
  | nil => simp [scanSuffixes]
  | cons x t ih => simp [scanSuffixes, ih]

/-- Plain characters followed by `%` test for a prefix. -/
theorem matchToks_literal_start (s t : List Char) :
    matchToks (s.map Tok.lit ++ [Tok.any]) t = some (decide (s <+: t)) := by
  induction s generalizing t with
  | nil => simp [matchToks_any]
  | cons c s ih =>
    cases t with
    | nil => simp [matchToks, matchTok]
    | cons x t =>
      simp only [List.map_cons, List.cons_append, matchToks, matchTok]
      by_cases hx : x = c
      · subst hx
        simp [ih t, List.cons_prefix_cons]
      · have hx1 : ¬ c = x := fun h => hx h.symm
        simp [hx, hx1, List.cons_prefix_cons]

/-- Scanning for a prefix at every position tests for a substring. -/
theorem scanSuffixes_start (s t : List Char) :
    scanSuffixes (fun u => some (decide (s <+: u))) t = some (decide (s <:+: t)) := by
  induction t with
  | nil => simp [scanSuffixes]
  | cons x t ih =>
    by_cases hp : s <+: x :: t
    · have hi : s <:+: x :: t := hp.isInfix
      simp [scanSuffixes, hp, hi]
    · simp only [scanSuffixes, hp, decide_False, ih]
      congr 1
      simp [List.infix_cons_iff, hp]

/-- The pattern `%s%` with `s` of plain characters tests for a substring. -/
theorem likeMatch_literal_within (s : List Char) (hs : ∀ c ∈ s, isWild c = false)
    (t : List Char) : likeMatch (['%'] ++ s ++ ['%']) t = some (decide (s <:+: t)) := by
  have hfun : matchToks (s.map Tok.lit ++ [Tok.any]) = fun u => some (decide (s <+: u)) :=
    funext (matchToks_literal_start s)
  unfold likeMatch
  rw [tokens_percent_plain s hs]
  show scanSuffixes (matchToks (s.map Tok.lit ++ [Tok.any])) t = _
  rw [hfun, scanSuffixes_start]

/-- The ASCII folding meets the assumptions made of a case folding. -/
theorem asciiFolding_lawful : asciiFolding.Lawful where
  js_nil := rfl
  sql_nil := rfl
  sql_idem := lower_idem
  sql_percent := fun s => by simp [asciiFolding, lower]
  sql_plain := lower_not_wild

/-- For a query of plain characters on which the two foldings agree, `ILIKE` on the
handler's pattern is the case-insensitive substring test. -/
theorem ilike_literal (F : CaseFolding) (hF : F.Lawful) (q field : String)
    (hq : ∀ c ∈ q.data, isWild c = false) (hjs : F.sql (F.js q.data) = F.sql q.data) :
    ilike F (F.sql field.data) (['%'] ++ F.js q.data ++ ['%'])
      = some (containsCI F field q) := by
  unfold ilike containsCI
  rw [hF.sql_percent, hF.sql_idem, hjs,
    likeMatch_literal_within (F.sql q.data) (hF.sql_plain q.data hq)]

theorem searchRows_literal (F : CaseFolding) (hF : F.Lawful) (q : String)
    (hq : ∀ c ∈ q.data, isWild c = false) (hjs : F.sql (F.js q.data) = F.sql q.data)
    (fs : List FileRecord) :
    searchRows F (['%'] ++ F.js q.data ++ ['%']) fs
      = .ok (fs.filter (fun r => containsCI F r.title q || containsCI F r.category q)) := by
  induction fs with
  | nil => rfl
  | cons r rs ih =>
    simp only [searchRows, ilike_literal F hF q _ hq hjs, ih, List.filter_cons]

/-- Result of the search handler for a query of plain characters. -/
theorem searchHandler_literal (F : CaseFolding) (hF : F.Lawful) (q : String)
    (hq : ∀ c ∈ q.data, isWild c = false) (hjs : F.sql (F.js q.data) = F.sql q.data)
    (w : World) :
    searchHandler F (some q) w
      = (.responded 200
          (.rows (w.files.filter
            (fun r => containsCI F r.title q || containsCI F r.category q))),
         w) := by
  simp only [searchHandler, searchRows_literal F hF q hq hjs]

/-- The update handler at an id the store reads as `n`, for values within the column
length. -/
theorem updateHandler_read (int4 : String → Except String Int) (w : World) (id : String) (n : Int)
    (title category : String)
    (hid : int4 id = .ok n) (ht : title.length ≤ 255) (hc : category.length ≤ 255) :
    List.Perm (updateHandler int4 id (some title) (some category) w).2.files
      (w.files.map (fun r =>
        if (r.id : Int) = n then { r with title := title, category := category } else r)) ∧
    (updateHandler int4 id (some title) (some category) w).2.users = w.users ∧
    (updateHandler int4 id (some title) (some category) w).2.blobs = w.blobs ∧
    (updateHandler int4 id (some title) (some category) w).1
      = (match w.files.find? (fun r => (r.id : Int) == n) with
         | some row =>
           .responded 200
             (.updateOk "File updated successfully"
               { row with title := title, category := category })
         | none => .responded 404 (.message "File not found")) := by
  have hupd := updateFileById_short w n title category ht hc
  have hworld : (updateHandler int4 id (some title) (some category) w).2
      = { w with files := (w.files.filter (fun r => (r.id : Int) != n) ++
            (w.files.filter (fun r => (r.id : Int) == n)).map
              (setTitleCategory title category)) } := by
    simp only [updateHandler, hid, hupd]
    cases (w.files.filter (fun r => (r.id : Int) == n)).map
      (setTitleCategory title category) <;> rfl
  refine ⟨?_, ?_, ?_, ?_⟩
  · rw [hworld]
    have hsplit : List.Perm
        (w.files.filter (fun r => (r.id : Int) == n)
          ++ w.files.filter (fun r => !((r.id : Int) == n))) w.files :=
      List.filter_append_perm _ w.files
    have hmap := (hsplit.map (fun r =>
        if (r.id : Int) = n then { r with title := title, category := category } else r)).symm
    refine List.Perm.trans ?_ hmap.symm
    rw [List.map_append]
    refine List.Perm.trans List.perm_append_comm ?_
    have h1 : (w.files.filter (fun r => (r.id : Int) == n)).map
          (setTitleCategory title category)
        = (w.files.filter (fun r => (r.id : Int) == n)).map (fun r =>
            if (r.id : Int) = n then { r with title := title, category := category }
            else r) := by
      apply List.map_congr_left
      intro r hr
      have : (r.id : Int) = n := by simpa using (List.mem_filter.mp hr).2
      simp [setTitleCategory, this]
    have h2 : w.files.filter (fun r => (r.id : Int) != n)
        = (w.files.filter (fun r => !((r.id : Int) == n))).map (fun r =>
            if (r.id : Int) = n then { r with title := title, category := category }
            else r) := by
      have hid2 : (w.files.filter (fun r => !((r.id : Int) == n))).map (fun r =>
            if (r.id : Int) = n then { r with title := title, category := category }
            else r) = (w.files.filter (fun r => !((r.id : Int) == n))).map (fun r => r) := by
        apply List.map_congr_left
        intro r hr
        have : ¬ (r.id : Int) = n := by simpa using (List.mem_filter.mp hr).2
        simp [this]
      rw [hid2, List.map_id']
      rfl
    rw [h1, ← h2]
  · rw [hworld]
  · rw [hworld]
  · have hf := filter_id_find w.files n
    simp only [updateHandler, hid, hupd]
    cases hfl : w.files.filter (fun r => (r.id : Int) == n) with
    | nil =>
      rw [hfl] at hf
      simp only [List.head?_nil] at hf
      rw [← hf]
      rfl
    | cons a t =>
      rw [hfl] at hf
      simp only [List.head?_cons] at hf
      rw [← hf]
      rfl

/-! ## Claims -/

/-- C2: when no User row has the request's email, the login handler responds 400 with
message "User not found" whatever the password field holds (absent included), and makes
no call on the hash collaborator: the world, call log included, is left as it was. -/
theorem login_unknown_email_not_found (B : Bcrypt) (w : World) (email password : Option String)
    (h : ∀ u ∈ w.users, some u.email ≠ email) :
    loginHandler B ⟨email, password⟩ w = (.responded 400 (.message "User not found"), w) ∧
    compareCount (loginHandler B ⟨email, password⟩ w).2.ops = compareCount w.ops := by
  have hsel : selectUsersByEmail email w = [] := by
    cases email with
    | none => rfl
    | some e =>
      simp only [selectUsersByEmail]
      rw [List.filter_eq_nil_iff]
      intro u hu
      have := h u hu
      simpa using this
  have hres : loginHandler B ⟨email, password⟩ w
      = (.responded 400 (.message "User not found"), w) := by
    simp [loginHandler, hsel]
  exact ⟨hres, by rw [hres]⟩

/-- Witness for C2 on a store holding one other user, with the password absent. -/
theorem login_unknown_email_not_found_witness :
    loginHandler taggedBcrypt ⟨some "nobody@x.com", none⟩ worldTwoFiles
      = (.responded 400 (.message "User not found"), worldTwoFiles) ∧
    compareCount
      (loginHandler taggedBcrypt ⟨some "nobody@x.com", none⟩
        worldTwoFiles).2.ops = compareCount worldTwoFiles.ops :=
  login_unknown_email_not_found taggedBcrypt worldTwoFiles
    (some "nobody@x.com") none (by decide)

set_option maxRecDepth 8192 in
/-- C9, refuted as stated: the ids `abc` and `2147483648` match no FileRecord, yet the
delete handler and the update handler answer them with a generic 500, because the store
cannot read the path segment as a 32-bit integer; and for id 7, which no record has, the
update handler answers 500 when the title has 256 characters. -/
theorem missing_id_refuted :
    deleteHandler int4In "abc" worldTwoFiles
      = (.responded 500 (.error "invalid input syntax for type integer: \"abc\""),
         worldTwoFiles) ∧
    deleteHandler int4In "2147483648" worldTwoFiles
      = (.responded 500 (.error "value \"2147483648\" is out of range for type integer"),
         worldTwoFiles) ∧
    updateHandler int4In "abc" (some "t") (some "c") worldTwoFiles
      = (.responded 500 (.error "invalid input syntax for type integer: \"abc\""),
         worldTwoFiles) ∧
    updateHandler int4In "2147483648" (some "t") (some "c") worldTwoFiles
      = (.responded 500 (.error "value \"2147483648\" is out of range for type integer"),
         worldTwoFiles) ∧
    updateHandler int4In "7" (some longTitle) (some "c") worldTwoFiles
      = (.responded 500 (.error "value too long for type character varying(255)"),
         worldTwoFiles) := by
  decide

/-- C9, amended: for an id that the store reads as a 32-bit integer and that matches no
FileRecord, the delete handler responds 404 with message "File not found", and so does
the update handler when the title and the category are each absent or of at most 255
characters; both leave the whole world (store, Blob Storage and the log of filesystem
calls) as it was. -/
theorem missing_id_not_found (int4 : String → Except String Int) (w : World)
    (id : String) (n : Int)
    (title category : Option String)
    (hid : int4 id = .ok n)
    (ht : ∀ t, title = some t → t.length ≤ 255)
    (hc : ∀ c, category = some c → c.length ≤ 255)
    (h : ∀ r ∈ w.files, (r.id : Int) ≠ n) :
    deleteHandler int4 id w = (.responded 404 (.message "File not found"), w) ∧
    updateHandler int4 id title category w = (.responded 404 (.message "File not found"), w) := by
  constructor
  · simp [deleteHandler, hid, deleteFileById, filter_id_none w.files n h,
      filter_id_all w.files n h]
  · simp [updateHandler, hid, updateFileById, varchar255?_short title ht,
      varchar255?_short category hc, filter_id_none w.files n h]

/-- Witness for the amended C9 on a two-record store, at an id no record has. -/
theorem missing_id_not_found_witness :
    deleteHandler int4In "7" worldTwoFiles
      = (.responded 404 (.message "File not found"), worldTwoFiles) ∧
    updateHandler int4In "7" (some "t") none worldTwoFiles
      = (.responded 404 (.message "File not found"), worldTwoFiles) :=
  missing_id_not_found int4In worldTwoFiles "7" 7 (some "t") none rfl (by decide)
    (by decide) (by decide)

/-- C3 (the code departs from the claim): an upload that carries a PDF and no cover image
never reaches the insert. The handler reads `coverImage[0]` on line 160 with `coverImage`
undefined and leaves with a `TypeError`; no response is written and the world is as it
was, whatever the plain fields and the stored PDF are. -/
theorem upload_pdf_only_throws (int4 : String → Except String Int)
    (title category division userId : Option String)
    (pdfList : List MulterFile) (w : World) :
    uploadHandler int4
        { title := title, userId := userId, category := category, division := division,
          files := some { pdf := some pdfList, coverImage := none } } w
      = (.threw "TypeError: Cannot read properties of undefined (reading '0')", w) := by
  simp [uploadHandler]

/-- C4, refuted as stated: for a multipart upload with no PDF the handler writes no
response at all; it leaves with a `TypeError`. -/
theorem upload_no_pdf_refuted :
    (uploadHandler int4In uploadNoPdf worldCoverStored).1
      = .threw "TypeError: Cannot read properties of undefined (reading '0')" ∧
    ¬ ∃ status body, (uploadHandler int4In uploadNoPdf worldCoverStored).1
        = .responded status body := by
  have h1 : (uploadHandler int4In uploadNoPdf worldCoverStored).1
      = .threw "TypeError: Cannot read properties of undefined (reading '0')" := by decide
  refine ⟨h1, ?_⟩
  rintro ⟨s, b, h⟩
  rw [h1] at h
  cases h

/-- C4, amended: for every upload request that carries no PDF file (with or without a
cover image, multipart or not) the handler throws a `TypeError` before the `try` block:
it writes no response and inserts no FileRecord. The world `w` is the one the handler
starts from, in which multer has already stored any cover image of the request; the
handler hands it back as it was. -/
theorem upload_no_pdf_throws (int4 : String → Except String Int) (req : UploadReq)
    (w : World) (h : carriesPdf req = false) :
    ∃ e, "TypeError: Cannot read properties of undefined".data <+: e.data ∧
      uploadHandler int4 req w = (.threw e, w) := by
  obtain ⟨t, u, c, d, files⟩ := req
  cases files with
  | none => exact ⟨_, by decide, rfl⟩
  | some fs =>
    obtain ⟨pdf, cover⟩ := fs
    cases pdf with
    | none => exact ⟨_, by decide, rfl⟩
    | some l =>
      cases l with
      | nil =>
        cases cover with
        | none => exact ⟨_, by decide, rfl⟩
        | some cl => exact ⟨_, by decide, rfl⟩
      | cons a l => simp [carriesPdf] at h

/-- Witness for the amended C4 at the upload that has only a cover image, in the world
where multer has stored that image. -/
theorem upload_no_pdf_throws_witness :
    carriesPdf uploadNoPdf = false ∧
    ∃ e, "TypeError: Cannot read properties of undefined".data <+: e.data ∧
      uploadHandler int4In uploadNoPdf worldCoverStored = (.threw e, worldCoverStored) :=
  ⟨by decide, upload_no_pdf_throws int4In uploadNoPdf worldCoverStored (by decide)⟩

/-- C10, refuted as stated: with the PDF blob already gone, the delete handler answers 500
with the filesystem error, and the record's cover image is still in Blob Storage. -/
theorem delete_missing_blob_refuted :
    (deleteHandler int4In "1" worldPdfGone).1
      = .responded 500 (.error "ENOENT: no such file or directory, unlink 'uploads/a.pdf'") ∧
    blobExists (deleteHandler int4In "1" worldPdfGone).2 "uploads/c.png" = true := by
  decide

/-- C10, amended: for an existing FileRecord whose blob at `file_path` is absent, the
delete handler removes the record from the store, answers 500 with the error of the failed
`unlinkSync`, and removes nothing from Blob Storage. -/
theorem delete_missing_blob_fails (int4 : String → Except String Int) (w : World)
    (id : String) (row : FileRecord)
    (hid : int4 id = .ok (row.id : Int))
    (hk : filesKeyed w) (hr : row ∈ w.files) (hgone : blobExists w row.file_path = false) :
    deleteHandler int4 id w
      = (.responded 500
          (.error ("ENOENT: no such file or directory, unlink '" ++ row.file_path ++ "'")),
         { w with files := w.files.filter (fun r => decide (r ≠ row)),
                  ops := w.ops ++ [Op.unlink row.file_path] }) := by
  have hsel := filter_id_keyed w.files row hk hr
  have hrest := filter_ne_keyed w.files row hk hr
  have hu := unlinkSync_absent row.file_path
    { w with files := w.files.filter (fun r => decide (r ≠ row)) } hgone
  simp only [deleteHandler, hid, deleteFileById, hsel, hrest]
  rw [hu]

/-- Witness for the amended C10 at the record whose PDF blob is gone. -/
theorem delete_missing_blob_fails_witness :
    deleteHandler int4In "1" worldPdfGone
      = (.responded 500 (.error "ENOENT: no such file or directory, unlink 'uploads/a.pdf'"),
         { worldPdfGone with files := [], ops := [Op.unlink "uploads/a.pdf"] }) :=
  delete_missing_blob_fails int4In worldPdfGone "1"
    { id := 1, user_id := none, title := "Abc", category := "d", division := "x",
      file_path := "uploads/a.pdf", cover_image_path := some "uploads/c.png",
      upload_date := 0 }
    rfl (by decide) (by decide) (by decide)

/-- C8, refuted as stated: the one record of this store exists, ids are unique and the
blob named by both its `file_path` and its `cover_image_path` is present, yet the delete
handler answers 500: the second `unlinkSync` finds the blob already removed. -/
theorem delete_shared_blob_refuted :
    filesKeyed worldCoverIsPdf ∧
    blobExists worldCoverIsPdf "uploads/a.pdf" = true ∧
    (deleteHandler int4In "1" worldCoverIsPdf).1
      = .responded 500
          (.error "ENOENT: no such file or directory, unlink 'uploads/a.pdf'") := by
  decide

/-- C8, amended: for an existing FileRecord (ids being the primary key) whose PDF blob
and, when `cover_image_path` is non-null, cover blob are present and whose
`cover_image_path` differs from its `file_path`, the delete handler responds 200, removes
exactly that record, removes the blobs at `file_path` and `cover_image_path` and no
other blob, leaves the users alone, and a following list (`GET /files`) returns no row
with the deleted id. -/
theorem delete_removes_record_and_blobs (int4 : String → Except String Int)
    (w : World) (id : String) (row : FileRecord)
    (hid : int4 id = .ok (row.id : Int))
    (hk : filesKeyed w) (hr : row ∈ w.files)
    (hpdf : blobExists w row.file_path = true)
    (hcov : ∀ c, row.cover_image_path = some c → blobExists w c = true ∧ c ≠ row.file_path) :
    (deleteHandler int4 id w).1 = .responded 200 (.message "File deleted successfully") ∧
    (deleteHandler int4 id w).2.files = w.files.filter (fun r => decide (r ≠ row)) ∧
    (deleteHandler int4 id w).2.users = w.users ∧
    (deleteHandler int4 id w).2.blobs
      = w.blobs.filter
          (fun b => decide (b.1 ≠ row.file_path ∧ some b.1 ≠ row.cover_image_path)) ∧
    ∃ rs, (listHandler (deleteHandler int4 id w).2).1 = .responded 200 (.rows rs) ∧
      ∀ r ∈ rs, r.id ≠ row.id := by
  rw [deleteHandler_present int4 w id row hid hk hr hpdf hcov]
  refine ⟨rfl, rfl, rfl, rfl, _, rfl, ?_⟩
  intro r hrm heq
  simp only [List.mem_filter, decide_eq_true_eq] at hrm
  exact hrm.2 (List.inj_on_of_nodup_map hk hrm.1 hr heq)

/-- Witness for the amended C8: deleting record 1 of the two-record store, PDF and cover
present as two blobs. -/
theorem delete_removes_record_and_blobs_witness :
    (deleteHandler int4In "1" worldTwoFiles).1
      = .responded 200 (.message "File deleted successfully") ∧
    (deleteHandler int4In "1" worldTwoFiles).2.files
      = [{ id := 2, user_id := some 1, title := "Notes", category := "Maths",
           division := "y", file_path := "uploads/b.pdf", cover_image_path := none,
           upload_date := 5 }] ∧
    (deleteHandler int4In "1" worldTwoFiles).2.users = worldTwoFiles.users ∧
    (deleteHandler int4In "1" worldTwoFiles).2.blobs
      = worldTwoFiles.blobs.filter
          (fun b => decide (b.1 ≠ "uploads/a.pdf" ∧ some b.1 ≠ some "uploads/c.png")) ∧
    ∃ rs, (listHandler (deleteHandler int4In "1" worldTwoFiles).2).1 = .responded 200 (.rows rs) ∧
      ∀ r ∈ rs, r.id ≠ 1 :=
  delete_removes_record_and_blobs int4In worldTwoFiles "1"
    { id := 1, user_id := some 1, title := "Abc", category := "d", division := "x",
      file_path := "uploads/a.pdf", cover_image_path := some "uploads/c.png",
      upload_date := 0 }
    rfl (by decide) (by decide) (by decide) (by decide)

set_option maxRecDepth 8192 in
/-- C7, refuted as stated: for record 1 and a title of 256 characters the update handler
answers 500 and the table is as before, so the row's title is not replaced by the
supplied value. -/
theorem update_long_title_refuted :
    longTitle.length = 256 ∧
    updateHandler int4In "1" (some longTitle) (some "c") worldTwoFiles
      = (.responded 500 (.error "value too long for type character varying(255)"),
         worldTwoFiles) := by
  decide

/-- C7, amended: for every store state, every id and every title and category of at most
255 characters each, after the update handler runs the `files` table is, up to the order
of its rows, the table before with title and category replaced in the rows that have the
id: those rows keep every other column, rows with another id are untouched and no row is
added or removed. Users and Blob Storage are as before, and the response is 200 carrying
the updated row when a row has the id (404 otherwise). An id that the store cannot read as
a 32-bit integer is the id of no row: the table is as before and the response is 500. -/
theorem update_changes_only_title_category (int4 : String → Except String Int)
    (w : World) (id : String)
    (title category : String) (ht : title.length ≤ 255) (hc : category.length ≤ 255) :
    match int4 id with
    | .error e =>
      updateHandler int4 id (some title) (some category) w = (.responded 500 (.error e), w)
    | .ok n =>
      List.Perm (updateHandler int4 id (some title) (some category) w).2.files
        (w.files.map (fun r =>
          if (r.id : Int) = n then { r with title := title, category := category }
          else r)) ∧
      (updateHandler int4 id (some title) (some category) w).2.users = w.users ∧
      (updateHandler int4 id (some title) (some category) w).2.blobs = w.blobs ∧
      (updateHandler int4 id (some title) (some category) w).1
        = (match w.files.find? (fun r => (r.id : Int) == n) with
           | some row =>
             .responded 200
               (.updateOk "File updated successfully"
                 { row with title := title, category := category })
           | none => .responded 404 (.message "File not found")) := by
  cases hid : int4 id with
  | error e => simp [updateHandler, hid]
  | ok n => exact updateHandler_read int4 w id n title category hid ht hc

/-- Witness for the amended C7: retitling record 1 of the two-record store. -/
theorem update_changes_only_title_category_witness :
    match int4In "1" with
    | .error e =>
      updateHandler int4In "1" (some "New") (some "Physics") worldTwoFiles
        = (.responded 500 (.error e), worldTwoFiles)
    | .ok n =>
      List.Perm (updateHandler int4In "1" (some "New") (some "Physics") worldTwoFiles).2.files
        (worldTwoFiles.files.map (fun r =>
          if (r.id : Int) = n then { r with title := "New", category := "Physics" }
          else r)) ∧
      (updateHandler int4In "1" (some "New") (some "Physics") worldTwoFiles).2.users
        = worldTwoFiles.users ∧
      (updateHandler int4In "1" (some "New") (some "Physics") worldTwoFiles).2.blobs
        = worldTwoFiles.blobs ∧
      (updateHandler int4In "1" (some "New") (some "Physics") worldTwoFiles).1
        = (match worldTwoFiles.files.find? (fun r => (r.id : Int) == n) with
           | some row =>
             .responded 200
               (.updateOk "File updated successfully"
                 { row with title := "New", category := "Physics" })
           | none => .responded 404 (.message "File not found")) :=
  update_changes_only_title_category int4In worldTwoFiles "1" "New" "Physics"
    (by decide) (by decide)

/-- C5, refuted as stated: under the ASCII folding the query `_` selects every record of
the two-record store, although no title and no category contains an underscore. -/
theorem search_wildcard_refuted :
    (searchHandler asciiFolding (some "_") worldTwoFiles).1
      = .responded 200 (.rows worldTwoFiles.files) ∧
    worldTwoFiles.files.filter
        (fun r => containsCI asciiFolding r.title "_" || containsCI asciiFolding r.category "_")
      = [] := by
  decide

/-- C5, amended: for case foldings that meet `CaseFolding.Lawful`, every store state and
every query string without `%`, `_` and backslash on which lowercasing by the JavaScript
runtime is absorbed by the store's folding, the search handler responds 200 with exactly
the FileRecord rows, in table order, whose title or category contains the query as a
substring when both are compared after the store's case folding. -/
theorem search_plain_query_is_substring (F : CaseFolding) (hF : F.Lawful) (w : World)
    (q : String) (hq : ∀ c ∈ q.data, c ≠ '%' ∧ c ≠ '_' ∧ c ≠ '\\')
    (hjs : F.sql (F.js q.data) = F.sql q.data) :
    searchHandler F (some q) w
      = (.responded 200
          (.rows (w.files.filter
            (fun r => containsCI F r.title q || containsCI F r.category q))),
         w) := by
  apply searchHandler_literal F hF q _ hjs
  intro c hc
  obtain ⟨h1, h2, h3⟩ := hq c hc
  simp [isWild, h1, h2, h3]

/-- Witness for the amended C5: the query `aT` finds the record of category `Maths`. -/
theorem search_plain_query_is_substring_witness :
    searchHandler asciiFolding (some "aT") worldTwoFiles
      = (.responded 200
          (.rows (worldTwoFiles.files.filter
            (fun r => containsCI asciiFolding r.title "aT"
              || containsCI asciiFolding r.category "aT"))),
         worldTwoFiles) ∧
    worldTwoFiles.files.filter
        (fun r => containsCI asciiFolding r.title "aT" || containsCI asciiFolding r.category "aT")
      = [{ id := 2, user_id := some 1, title := "Notes", category := "Maths",
           division := "y", file_path := "uploads/b.pdf", cover_image_path := none,
           upload_date := 5 }] :=
  ⟨search_plain_query_is_substring asciiFolding asciiFolding_lawful worldTwoFiles "aT"
      (by decide) (by decide), by decide⟩

/-- C6, refuted as stated: with the query parameter missing the handler writes no
response; it leaves with a `TypeError` raised on line 205. -/
theorem search_missing_query_refuted :
    (searchHandler asciiFolding none worldTwoFiles).1
      = .threw "TypeError: Cannot read properties of undefined (reading 'toLowerCase')" ∧
    ¬ ∃ status body,
        (searchHandler asciiFolding none worldTwoFiles).1 = .responded status body := by
  refine ⟨rfl, ?_⟩
  rintro ⟨s, b, h⟩
  cases h

/-- C6, amended: with the query parameter present and empty the search handler does not
throw and responds 200 with all FileRecord rows of the store, a function of the store
state alone; with the parameter missing it throws before it reaches the store and
leaves the world as it was. This holds under every case folding that meets
`CaseFolding.Lawful`. -/
theorem search_empty_query_lists_all (F : CaseFolding) (hF : F.Lawful) (w : World) :
    searchHandler F (some "") w = (.responded 200 (.rows w.files), w) ∧
    searchHandler F none w
      = (.threw "TypeError: Cannot read properties of undefined (reading 'toLowerCase')", w) := by
  refine ⟨?_, rfl⟩
  have hjs : F.sql (F.js ("" : String).data) = F.sql ("" : String).data := by
    show F.sql (F.js []) = F.sql []
    rw [hF.js_nil]
  rw [searchHandler_literal F hF "" (by simp) hjs]
  have h : w.files.filter (fun r => containsCI F r.title "" || containsCI F r.category "")
      = w.files := by
    rw [List.filter_eq_self]
    intro r _
    have : F.sql ("" : String).data = [] := hF.sql_nil
    simp [containsCI, this]
  rw [h]

/-- Witness for the amended C6 under the ASCII folding on the two-record store. -/
theorem search_empty_query_lists_all_witness :
    searchHandler asciiFolding (some "") worldTwoFiles
      = (.responded 200 (.rows worldTwoFiles.files), worldTwoFiles) ∧
    searchHandler asciiFolding none worldTwoFiles
      = (.threw "TypeError: Cannot read properties of undefined (reading 'toLowerCase')",
         worldTwoFiles) :=
  search_empty_query_lists_all asciiFolding asciiFolding_lawful worldTwoFiles

set_option maxRecDepth 8192 in
/-- C1, refuted as stated: the email of 255 letters and a trailing space is not yet
registered and the register handler succeeds on it, the store keeping the 255 letters;
the login handler called with that email and the mailed password then answers 400 "User
not found". The hash collaborator used accepts exactly the plaintext that was hashed. -/
theorem register_padded_email_refuted :
    (∀ u ∈ worldTwoFiles.users, u.email ≠ paddedEmail) ∧
    (registerHandler taggedBcrypt ⟨some paddedEmail⟩ 5 3 worldTwoFiles).1
      = .responded 200
          (.message "User registered successfully. Password has been sent to your email.") ∧
    (loginHandler taggedBcrypt ⟨some paddedEmail, some (generatePassword 5)⟩
        (registerHandler taggedBcrypt ⟨some paddedEmail⟩ 5 3 worldTwoFiles).2).1
      = .responded 400 (.message "User not found") := by
  decide

/-- C1, amended: register then login. With a hash collaborator whose `compare` accepts
exactly the plaintext that was hashed, for every world and every email of at most 255
characters that no User row has yet, when the register handler succeeds it has mailed the
generated password `P` to that email, the login handler called with `(email, P)` then
responds 200 with a user whose email is that email, and called with `(email, Q)` for any
`Q` other than `P` it responds 400 with message "Incorrect password". -/
theorem register_then_login (B : Bcrypt)
    (hB : ∀ p q rounds salt, B.compare q (B.hash p rounds salt) = decide (q = p))
    (w : World) (email : String) (rnd salt : Nat)
    (hlen : email.length ≤ 255)
    (hfresh : ∀ u ∈ w.users, u.email ≠ email)
    (hok : (registerHandler B ⟨some email⟩ rnd salt w).1
      = .responded 200
          (.message "User registered successfully. Password has been sent to your email.")) :
    Op.sendMail (passwordMail (some email) (generatePassword rnd))
      ∈ (registerHandler B ⟨some email⟩ rnd salt w).2.ops ∧
    (∃ user,
      (loginHandler B ⟨some email, some (generatePassword rnd)⟩
        (registerHandler B ⟨some email⟩ rnd salt w).2).1
        = .responded 200 (.loginOk "Login successful" user) ∧ user.email = email) ∧
    ∀ Q, Q ≠ generatePassword rnd →
      (loginHandler B ⟨some email, some Q⟩ (registerHandler B ⟨some email⟩ rnd salt w).2).1
        = .responded 400 (.message "Incorrect password") := by
  have hold : w.users.filter (fun u => u.email == email) = [] := by
    rw [List.filter_eq_nil_iff]
    intro u hu
    simpa using hfresh u hu
  have hdup : w.users.any (fun u => u.email == email) = false := by
    rw [List.any_eq_false]
    intro u hu
    simpa using hfresh u hu
  have hv := varchar255_short email hlen
  by_cases hpk : w.users.any (fun u => u.id == w.userSeq) = true
  · simp [registerHandler, insertUser, varchar255?, hv, hpk] at hok
  · have hreg : registerHandler B ⟨some email⟩ rnd salt w
        = (.responded 200
            (.message "User registered successfully. Password has been sent to your email."),
           { w with
               userSeq := w.userSeq + 1,
               users := w.users ++ [{ id := w.userSeq, email := email,
                                      password := B.hash (generatePassword rnd) 10 salt,
                                      created_at := w.clock }],
               ops := w.ops ++ [Op.bcryptHash (generatePassword rnd)] ++
                 [Op.sendMail (passwordMail (some email) (generatePassword rnd))] }) := by
      simp [registerHandler, insertUser, varchar255?, hv, hpk, hdup]
    rw [hreg]
    refine ⟨by simp, ?_, ?_⟩
    · refine ⟨{ id := w.userSeq, email := email,
                password := B.hash (generatePassword rnd) 10 salt,
                created_at := w.clock }, ?_, rfl⟩
      simp [loginHandler, selectUsersByEmail, List.filter_append, hold, hB]
    · intro Q hQ
      simp [loginHandler, selectUsersByEmail, List.filter_append, hold, hB, hQ]

/-- Witness for the amended C1: registering `b@x.com` in a store that holds another
user. -/
theorem register_then_login_witness :
    Op.sendMail (passwordMail (some "b@x.com") (generatePassword 81985529216486895))
      ∈ (registerHandler taggedBcrypt ⟨some "b@x.com"⟩ 81985529216486895 3 worldTwoFiles).2.ops ∧
    (∃ user,
      (loginHandler taggedBcrypt ⟨some "b@x.com", some (generatePassword 81985529216486895)⟩
        (registerHandler taggedBcrypt ⟨some "b@x.com"⟩ 81985529216486895 3 worldTwoFiles).2).1
        = .responded 200 (.loginOk "Login successful" user) ∧ user.email = "b@x.com") ∧
    ∀ Q, Q ≠ generatePassword 81985529216486895 →
      (loginHandler taggedBcrypt ⟨some "b@x.com", some Q⟩
        (registerHandler taggedBcrypt ⟨some "b@x.com"⟩ 81985529216486895 3 worldTwoFiles).2).1
        = .responded 400 (.message "Incorrect password") :=
  register_then_login taggedBcrypt
    (by intro p q r s; simp [taggedBcrypt, String.ext_iff, eq_comm])
    worldTwoFiles "b@x.com" 81985529216486895 3 (by decide) (by decide) (by decide)

end ResourceHub
